import Mathlib

/-
Shallow embedding of the mycosmwasm poll registry (src/src/contract.rs).

The contract operates over a persistent key-value store through the
cw-storage-plus primitives `Item` (for the Configuration singleton and the
cw2 contract-version record) and `Map` (for the Poll collection).  The spec
excludes the storage substrate, the identity-validation collaborator and the
binary encoding layer as external collaborators; here the store is made
explicit as a `Store` record threaded through every operation, with the
substrate assumed durable and fault-free (storage faults are the excluded
`StorageError` case).  Queries receive the store read-only (`Deps` in the
source), so they cannot write by construction.
-/

namespace Mycosmwasm

/-- Modelled from the spec: `ContractError` lives in src/error.rs, which is
not under src/.  contract.rs constructs only the `CustomError { val }`
variant; validation and storage faults propagate through the `?` operator as
wrapped standard errors, modelled by the `Std` variant carrying the
human-readable message (spec section 7: errors carry a short human-readable
string and no structured code). -/
inductive ContractError where
  | Std (msg : String)
  | CustomError (val : String)
deriving DecidableEq

/-- Modelled from the spec: the Configuration singleton from src/state.rs
(not under src/) holds one attribute, `admin_address`, a validated identity
string (spec section 3). -/
structure Config where
  admin_address : String
deriving DecidableEq

/-- Modelled from the spec: the Poll entity from src/state.rs (not under
src/), keyed by `question`; attributes `question`, `yes_votes`, `no_votes`
(unsigned counters, initial 0) — spec section 3.  The fields are exactly the
ones contract.rs constructs and updates. -/
structure Poll where
  question : String
  yes_votes : Nat
  no_votes : Nat
deriving DecidableEq

/-- Modelled from the spec: the initialization payload from src/msg.rs (not
under src/) — `{ admin_address: string }` (spec section 6). -/
structure InstantiateMsg where
  admin_address : String
deriving DecidableEq

/-- Modelled from the spec: the Execute commands from src/msg.rs (not under
src/) — `CreatePoll { question }` and `Vote { question, choice }` (spec
section 6). -/
inductive ExecuteMsg where
  | CreatePoll (question : String)
  | Vote (question : String) (choice : String)
deriving DecidableEq

/-- Modelled from the spec: the `GetPoll` query answer from src/msg.rs (not
under src/) — `{ poll: optional Poll }` (spec section 6). -/
structure GetPollResponse where
  poll : Option Poll
deriving DecidableEq

/-- The success envelope of cosmwasm_std, reduced to the one observable the
spec keeps in scope: the list of emitted attributes (spec section 6). -/
structure Response where
  attributes : List (String × String)
deriving DecidableEq

def Response.new : Response := ⟨[]⟩

def Response.add_attribute (r : Response) (k v : String) : Response :=
  ⟨r.attributes ++ [(k, v)]⟩

/-- Standard (non-contract) errors of the host library, reduced to their
human-readable message. -/
abbrev StdError := String

/-- The persistent store made explicit: the cw2 contract-version record, the
`CONFIG` singleton and the `POLLS` map, each a separately keyed region of the
key-value substrate. -/
structure Store where
  contract_info : Option (String × String)
  config : Option Config
  polls : String → Option Poll

/-- The cw2 `set_contract_version` call: writes the version record.  Faults
of the substrate are excluded by the spec, so the write always succeeds. -/
def set_contract_version (s : Store) (name version : String) : Store :=
  { s with contract_info := some (name, version) }

/-- Modelled from the spec: identity validation is owned by the excluded
identity-validation collaborator (spec section 4.1); a malformed address
fails, a well-formed one is returned validated.  The concrete format rule is
irrelevant to the claims, which quantify over addresses this function
accepts; non-emptiness stands in for the collaborator's format rules. -/
def addr_validate (a : String) : Except ContractError String :=
  if a.isEmpty then Except.error (ContractError.Std "Invalid input") else Except.ok a

/-- cw-storage-plus `Map.has` on the POLLS map: key-existence test. -/
def POLLS_has (s : Store) (question : String) : Bool :=
  (s.polls question).isSome

/-- cw-storage-plus `Map.load` on the POLLS map: fails on an absent key. -/
def POLLS_load (s : Store) (question : String) : Except ContractError Poll :=
  match s.polls question with
  | some p => Except.ok p
  | none => Except.error (ContractError.Std "not found")

/-- cw-storage-plus `Map.may_load` on the POLLS map: absence is a normal
`none` answer, not an error; only excluded substrate faults could fail. -/
def POLLS_may_load (s : Store) (question : String) : Except StdError (Option Poll) :=
  Except.ok (s.polls question)

/-- cw-storage-plus `Map.save` on the POLLS map: full-record overwrite under
the given key. -/
def POLLS_save (s : Store) (question : String) (poll : Poll) : Store :=
  { s with polls := fun k => if k = question then some poll else s.polls k }

/-- cw-storage-plus `Item.save` on the CONFIG singleton. -/
def CONFIG_save (s : Store) (c : Config) : Store :=
  { s with config := some c }

def CONTRACT_NAME : String := "crates.io:mycosmwasm"

def CONTRACT_VERSION : String := "0.1.0"

/-- Embedding of `instantiate` (contract.rs lines 14-29): writes the cw2
version record, validates the admin address, saves the Configuration and
answers with the `action=instantiate` attribute.  There is no guard against
an already-present Configuration. -/
def instantiate (s : Store) (msg : InstantiateMsg) :
    Except ContractError Response × Store :=
  let s1 := set_contract_version s CONTRACT_NAME CONTRACT_VERSION
  match addr_validate msg.admin_address with
  | Except.error e => (Except.error e, s1)
  | Except.ok validated_admin_address =>
    let config : Config := { admin_address := validated_admin_address }
    let s2 := CONFIG_save s1 config
    (Except.ok (Response.new.add_attribute "action" "instantiate"), s2)

/-- Embedding of `execute_create_poll` (contract.rs lines 44-65): rejects an
already-taken question key, otherwise persists a fresh zero-tally poll. -/
def execute_create_poll (s : Store) (question : String) :
    Except ContractError Response × Store :=
  if POLLS_has s question then
    (Except.error (ContractError.CustomError "key already taken"), s)
  else
    let poll : Poll := { question := question, yes_votes := 0, no_votes := 0 }
    let s1 := POLLS_save s question poll
    (Except.ok (Response.new.add_attribute "action" "create_poll"), s1)

/-- Embedding of `execute_vote` (contract.rs lines 67-94): existence check
first, then load, then the choice match incrementing one counter (the other
two fields carried over), then full-record save under the same key. -/
def execute_vote (s : Store) (question : String) (choice : String) :
    Except ContractError Response × Store :=
  if !POLLS_has s question then
    (Except.error (ContractError.CustomError "poll doesn't exist!"), s)
  else
    match POLLS_load s question with
    | Except.error e => (Except.error e, s)
    | Except.ok poll =>
      if choice = "yes" then
        (Except.ok (Response.new.add_attribute "action" "vote"),
          POLLS_save s question { poll with yes_votes := poll.yes_votes + 1 })
      else if choice = "no" then
        (Except.ok (Response.new.add_attribute "action" "vote"),
          POLLS_save s question { poll with no_votes := poll.no_votes + 1 })
      else
        (Except.error (ContractError.CustomError "invalid choice"), s)

/-- Embedding of the `execute` dispatcher (contract.rs lines 32-42). -/
def execute (s : Store) (msg : ExecuteMsg) : Except ContractError Response × Store :=
  match msg with
  | ExecuteMsg.CreatePoll question => execute_create_poll s question
  | ExecuteMsg.Vote question choice => execute_vote s question choice

/-- Embedding of `query_get_poll` (contract.rs lines 104-107): a pure read
through `may_load`; the store is received read-only (`Deps`), so no store is
returned — queries cannot write by construction.  The `to_binary` step is
the excluded lossless serialization layer and is dropped. -/
def query_get_poll (s : Store) (question : String) : Except StdError GetPollResponse :=
  match POLLS_may_load s question with
  | Except.error e => Except.error e
  | Except.ok poll => Except.ok { poll := poll }

/-- Successive application of `Vote(q, c)` commands, threading the store. -/
def applyVotes (s : Store) (q : String) (cs : List String) : Store :=
  cs.foldl (fun t c => (execute_vote t q c).2) s

/-- Whether an operation result is a success. -/
def isOkR : Except ContractError Response → Bool
  | Except.ok _ => true
  | Except.error _ => false

/-- Every vote of the sequence, applied in order, succeeds. -/
def allVotesOk (s : Store) (q : String) : List String → Bool
  | [] => true
  | c :: cs => isOkR (execute_vote s q c).1 && allVotesOk (execute_vote s q c).2 q cs

/-- Number of occurrences of a given choice string in a vote sequence. -/
def countEq (v : String) : List String → Nat
  | [] => 0
  | c :: cs => (if c = v then 1 else 0) + countEq v cs

/- Concrete states used to evaluate the theorems on explicit inputs. -/

def emptyStore : Store := { contract_info := none, config := none, polls := fun _ => none }

def pollQ : Poll := { question := "Q", yes_votes := 0, no_votes := 0 }

def storeQ : Store := { emptyStore with polls := fun k => if k = "Q" then some pollQ else none }

def storeCfg : Store := { emptyStore with config := some { admin_address := "addr1" } }

/- Helper lemmas. -/

lemma POLLS_has_of_some {s : Store} {q : String} {p : Poll} (hp : s.polls q = some p) :
    POLLS_has s q = true := by
  simp [POLLS_has, hp]

lemma POLLS_load_of_some {s : Store} {q : String} {p : Poll} (hp : s.polls q = some p) :
    POLLS_load s q = Except.ok p := by
  simp [POLLS_load, hp]

lemma execute_vote_yes {s : Store} {q : String} {p : Poll} (hp : s.polls q = some p) :
    execute_vote s q "yes" =
      (Except.ok (Response.new.add_attribute "action" "vote"),
        POLLS_save s q { p with yes_votes := p.yes_votes + 1 }) := by
  simp [execute_vote, POLLS_has_of_some hp, POLLS_load_of_some hp]

lemma execute_vote_no {s : Store} {q : String} {p : Poll} (hp : s.polls q = some p) :
    execute_vote s q "no" =
      (Except.ok (Response.new.add_attribute "action" "vote"),
        POLLS_save s q { p with no_votes := p.no_votes + 1 }) := by
  simp [execute_vote, POLLS_has_of_some hp, POLLS_load_of_some hp]

lemma execute_vote_bad {s : Store} {q c : String} {p : Poll} (hp : s.polls q = some p)
    (hy : c ≠ "yes") (hn : c ≠ "no") :
    execute_vote s q c = (Except.error (ContractError.CustomError "invalid choice"), s) := by
  simp [execute_vote, POLLS_has_of_some hp, POLLS_load_of_some hp, hy, hn]

lemma POLLS_save_polls_self (s : Store) (q : String) (p : Poll) :
    (POLLS_save s q p).polls q = some p := by
  simp [POLLS_save]

/-- The store after a vote sequence holds, under the voted key, the starting
poll with each counter advanced by the number of matching choices; and every
choice of a fully successful sequence is one of the two literal tokens. -/
lemma applyVotes_tally (q : String) (cs : List String) :
    ∀ (s : Store) (p : Poll), s.polls q = some p → allVotesOk s q cs = true →
      (applyVotes s q cs).polls q =
        some ⟨p.question, p.yes_votes + countEq "yes" cs, p.no_votes + countEq "no" cs⟩ ∧
      countEq "yes" cs + countEq "no" cs = cs.length := by
  induction cs with
  | nil =>
    intro s p hp _
    obtain ⟨pq, py, pn⟩ := p
    exact ⟨by simpa [applyVotes, countEq] using hp, by simp [countEq]⟩
  | cons c cs ih =>
    intro s p hp hok
    by_cases hy : c = "yes"
    · subst hy
      have hstep := execute_vote_yes hp
      have hok2 : allVotesOk (execute_vote s q "yes").2 q cs = true := by
        have := hok
        simp only [allVotesOk, Bool.and_eq_true] at this
        exact this.2
      rw [hstep] at hok2
      have hp2 := POLLS_save_polls_self s q { p with yes_votes := p.yes_votes + 1 }
      obtain ⟨h1, h2⟩ := ih (POLLS_save s q { p with yes_votes := p.yes_votes + 1 })
        { p with yes_votes := p.yes_votes + 1 } hp2 hok2
      constructor
      · have : applyVotes s q ("yes" :: cs) =
            applyVotes (POLLS_save s q { p with yes_votes := p.yes_votes + 1 }) q cs := by
          simp [applyVotes, hstep]
        rw [this, h1]
        simp [countEq]
        omega
      · simp [countEq]
        omega
    · by_cases hn : c = "no"
      · subst hn
        have hstep := execute_vote_no hp
        have hok2 : allVotesOk (execute_vote s q "no").2 q cs = true := by
          have := hok
          simp only [allVotesOk, Bool.and_eq_true] at this
          exact this.2
        rw [hstep] at hok2
        have hp2 := POLLS_save_polls_self s q { p with no_votes := p.no_votes + 1 }
        obtain ⟨h1, h2⟩ := ih (POLLS_save s q { p with no_votes := p.no_votes + 1 })
          { p with no_votes := p.no_votes + 1 } hp2 hok2
        constructor
        · have : applyVotes s q ("no" :: cs) =
              applyVotes (POLLS_save s q { p with no_votes := p.no_votes + 1 }) q cs := by
            simp [applyVotes, hstep]
          rw [this, h1]
          simp [countEq, hy]
          omega
        · simp [countEq, hy]
          omega
      · exfalso
        have hbad := execute_vote_bad hp hy hn
        have := hok
        simp only [allVotesOk, Bool.and_eq_true] at this
        rw [hbad] at this
        simp [isOkR] at this

/- Claim theorems. -/

/-- C1 (counterexample): on a store already holding the Configuration
`{admin_address := "addr1"}`, Initialize with the valid payload "addr2" does
not fail with AlreadyInitialized — it succeeds and the Configuration is
overwritten with the new admin. -/
theorem reinit_guard_counterexample :
    storeCfg.config = some { admin_address := "addr1" } ∧
    (instantiate storeCfg { admin_address := "addr2" }).1 =
      Except.ok { attributes := [("action", "instantiate")] } ∧
    ((instantiate storeCfg { admin_address := "addr2" }).2).config =
      some { admin_address := "addr2" } :=
  ⟨rfl, rfl, rfl⟩

/-- C1 (amended): for every store state — in particular one that already
holds a Configuration — and every payload whose admin_address passes
validation, Initialize succeeds with the `action=instantiate` attribute and
overwrites the Configuration with the newly validated admin; the code has no
AlreadyInitialized guard. -/
theorem instantiate_overwrites_config (s : Store) (c : Config) (msg : InstantiateMsg)
    (v : String) (hc : s.config = some c) (hv : addr_validate msg.admin_address = Except.ok v) :
    (instantiate s msg).1 = Except.ok { attributes := [("action", "instantiate")] } ∧
    ((instantiate s msg).2).config = some { admin_address := v } := by
  constructor <;>
    simp [instantiate, hv, CONFIG_save, set_contract_version,
      Response.new, Response.add_attribute]

theorem instantiate_overwrites_config_witness :
    storeCfg.config = some { admin_address := "addr1" } ∧
    addr_validate "addr2" = Except.ok "addr2" ∧
    ((instantiate storeCfg { admin_address := "addr2" }).1 =
        Except.ok { attributes := [("action", "instantiate")] } ∧
      ((instantiate storeCfg { admin_address := "addr2" }).2).config =
        some { admin_address := "addr2" }) :=
  ⟨rfl, rfl,
    instantiate_overwrites_config storeCfg { admin_address := "addr1" }
      { admin_address := "addr2" } "addr2" rfl rfl⟩

/-- C2: from a state holding a poll for q with both counters 0, any sequence
of successful Vote(q, c) commands leaves a poll whose yes tally counts the
"yes" votes, whose no tally counts the "no" votes, and whose tally sum is
the number of successful votes in the sequence. -/
theorem vote_tally_correct (s : Store) (q : String) (p : Poll) (cs : List String)
    (hp : s.polls q = some p) (hy : p.yes_votes = 0) (hn : p.no_votes = 0)
    (hok : allVotesOk s q cs = true) :
    ∃ r : Poll, (applyVotes s q cs).polls q = some r ∧
      r.yes_votes = countEq "yes" cs ∧
      r.no_votes = countEq "no" cs ∧
      r.yes_votes + r.no_votes = cs.length := by
  obtain ⟨h1, h2⟩ := applyVotes_tally q cs s p hp hok
  exact ⟨⟨p.question, p.yes_votes + countEq "yes" cs, p.no_votes + countEq "no" cs⟩,
    h1, by simp [hy], by simp [hn], by simp [hy, hn, h2]⟩

theorem vote_tally_correct_witness :
    storeQ.polls "Q" = some pollQ ∧ pollQ.yes_votes = 0 ∧ pollQ.no_votes = 0 ∧
    allVotesOk storeQ "Q" ["yes", "yes", "no"] = true ∧
    (∃ r : Poll, (applyVotes storeQ "Q" ["yes", "yes", "no"]).polls "Q" = some r ∧
      r.yes_votes = countEq "yes" ["yes", "yes", "no"] ∧
      r.no_votes = countEq "no" ["yes", "yes", "no"] ∧
      r.yes_votes + r.no_votes = (["yes", "yes", "no"] : List String).length) :=
  ⟨rfl, rfl, rfl, rfl,
    vote_tally_correct storeQ "Q" pollQ ["yes", "yes", "no"] rfl rfl rfl rfl⟩

/-- C3: whenever a poll for q is present — in particular in any state
reached after CreatePoll(q) succeeded, whatever votes intervened —
CreatePoll(q) fails with the "key already taken" error and returns the store
exactly unchanged. -/
theorem create_poll_duplicate_rejected (s : Store) (q : String) (p : Poll)
    (hp : s.polls q = some p) :
    execute_create_poll s q =
      (Except.error (ContractError.CustomError "key already taken"), s) := by
  simp [execute_create_poll, POLLS_has_of_some hp]

theorem create_poll_duplicate_rejected_witness :
    storeQ.polls "Q" = some pollQ ∧
    execute_create_poll storeQ "Q" =
      (Except.error (ContractError.CustomError "key already taken"), storeQ) :=
  ⟨rfl, create_poll_duplicate_rejected storeQ "Q" pollQ rfl⟩

/-- C4: when no poll for q exists, Vote(q, c) fails with the "poll doesn't
exist!" error for every choice string c, leaves the store unchanged, and in
particular never reports "invalid choice": the existence check runs before
choice validation. -/
theorem vote_nonexistent_notfound (s : Store) (q c : String) (h : s.polls q = none) :
    execute_vote s q c =
      (Except.error (ContractError.CustomError "poll doesn't exist!"), s) ∧
    (execute_vote s q c).1 ≠
      Except.error (ContractError.CustomError "invalid choice") := by
  have hh : POLLS_has s q = false := by simp [POLLS_has, h]
  constructor <;> simp [execute_vote, hh]

theorem vote_nonexistent_notfound_witness :
    emptyStore.polls "missing" = none ∧
    (execute_vote emptyStore "missing" "bogus" =
        (Except.error (ContractError.CustomError "poll doesn't exist!"), emptyStore) ∧
      (execute_vote emptyStore "missing" "bogus").1 ≠
        Except.error (ContractError.CustomError "invalid choice")) :=
  ⟨rfl, vote_nonexistent_notfound emptyStore "missing" "bogus" rfl⟩

/-- C5: on a state holding a poll for q, a vote with choice "yes" or "no"
succeeds with the `action=vote` attribute and persists, under the same key
q, the poll with the matching counter advanced by exactly 1, the other
counter and the question field unchanged. -/
theorem vote_valid_increments (s : Store) (q c : String) (p : Poll)
    (hp : s.polls q = some p) (hc : c = "yes" ∨ c = "no") :
    (execute_vote s q c).1 = Except.ok { attributes := [("action", "vote")] } ∧
    ((execute_vote s q c).2).polls q =
      some ⟨p.question,
        p.yes_votes + (if c = "yes" then 1 else 0),
        p.no_votes + (if c = "no" then 1 else 0)⟩ := by
  rcases hc with hc | hc
  · subst hc
    rw [execute_vote_yes hp]
    refine ⟨rfl, ?_⟩
    rw [POLLS_save_polls_self]
    simp
  · subst hc
    rw [execute_vote_no hp]
    refine ⟨rfl, ?_⟩
    rw [POLLS_save_polls_self]
    simp

theorem vote_valid_increments_witness :
    storeQ.polls "Q" = some pollQ ∧ ("yes" = "yes" ∨ "yes" = "no") ∧
    ((execute_vote storeQ "Q" "yes").1 =
        Except.ok { attributes := [("action", "vote")] } ∧
      ((execute_vote storeQ "Q" "yes").2).polls "Q" =
        some ⟨pollQ.question,
          pollQ.yes_votes + (if "yes" = "yes" then 1 else 0),
          pollQ.no_votes + (if "yes" = "no" then 1 else 0)⟩) :=
  ⟨rfl, Or.inl rfl, vote_valid_increments storeQ "Q" "yes" pollQ rfl (Or.inl rfl)⟩

/-- C6: on a state with no poll for q (any string, the empty one included),
CreatePoll(q) succeeds with the `action=create_poll` attribute and persists
the record with question q and both counters 0 under key q. -/
theorem create_poll_fresh_succeeds (s : Store) (q : String) (h : s.polls q = none) :
    (execute_create_poll s q).1 =
      Except.ok { attributes := [("action", "create_poll")] } ∧
    ((execute_create_poll s q).2).polls q =
      some { question := q, yes_votes := 0, no_votes := 0 } := by
  have hh : POLLS_has s q = false := by simp [POLLS_has, h]
  constructor
  · simp [execute_create_poll, hh, Response.new, Response.add_attribute]
  · simp [execute_create_poll, hh, POLLS_save]

theorem create_poll_fresh_succeeds_witness :
    emptyStore.polls "" = none ∧
    ((execute_create_poll emptyStore "").1 =
        Except.ok { attributes := [("action", "create_poll")] } ∧
      ((execute_create_poll emptyStore "").2).polls "" =
        some { question := "", yes_votes := 0, no_votes := 0 }) :=
  ⟨rfl, create_poll_fresh_succeeds emptyStore "" rfl⟩

/-- C7: an Execute command (CreatePoll or Vote) that returns an error hands
back the store exactly unchanged: no poll created, no counter touched, the
Configuration intact — failures have no partial effects. -/
theorem execute_error_store_unchanged (s : Store) (m : ExecuteMsg) (e : ContractError)
    (h : (execute s m).1 = Except.error e) : (execute s m).2 = s := by
  cases m with
  | CreatePoll q =>
    by_cases hq : POLLS_has s q = true
    · simp [execute, execute_create_poll, hq]
    · simp [execute, execute_create_poll, hq] at h
  | Vote q c =>
    cases hq : s.polls q with
    | none =>
      have hh : POLLS_has s q = false := by simp [POLLS_has, hq]
      simp [execute, execute_vote, hh]
    | some p =>
      by_cases hy : c = "yes"
      · subst hy
        rw [execute, execute_vote_yes hq] at h
        exact absurd h (by simp)
      · by_cases hn : c = "no"
        · subst hn
          rw [execute, execute_vote_no hq] at h
          exact absurd h (by simp)
        · rw [execute, execute_vote_bad hq hy hn]

theorem execute_error_store_unchanged_witness :
    (execute storeQ (ExecuteMsg.CreatePoll "Q")).1 =
      Except.error (ContractError.CustomError "key already taken") ∧
    (execute storeQ (ExecuteMsg.CreatePoll "Q")).2 = storeQ :=
  ⟨rfl,
    execute_error_store_unchanged storeQ (ExecuteMsg.CreatePoll "Q")
      (ContractError.CustomError "key already taken") rfl⟩

/-- C8: the GetPoll query always succeeds and answers with exactly the
stored option for that key — Some poll when one exists, none when absent,
never an error for an absent key; it takes the store read-only, so it
cannot modify it. -/
theorem get_poll_total_read (s : Store) (q : String) :
    query_get_poll s q = Except.ok { poll := s.polls q } := rfl

/-- C9: no Execute path reads or writes the Configuration: whatever the
command and whether it succeeds or fails, the Configuration record of the
resulting store equals the one of the starting store. -/
theorem execute_preserves_config (s : Store) (m : ExecuteMsg) :
    ((execute s m).2).config = s.config := by
  cases m with
  | CreatePoll q =>
    by_cases hq : POLLS_has s q = true <;>
      simp [execute, execute_create_poll, hq, POLLS_save]
  | Vote q c =>
    cases hq : s.polls q with
    | none =>
      have hh : POLLS_has s q = false := by simp [POLLS_has, hq]
      simp [execute, execute_vote, hh]
    | some p =>
      by_cases hy : c = "yes"
      · subst hy
        rw [execute, execute_vote_yes hq]
        simp [POLLS_save]
      · by_cases hn : c = "no"
        · subst hn
          rw [execute, execute_vote_no hq]
          simp [POLLS_save]
        · rw [execute, execute_vote_bad hq hy hn]

/-- C10: whenever the existence check on the POLLS map answers true, the
subsequent load on the same key returns the stored poll rather than an
error: the error propagation after the check in execute_vote is
unreachable. -/
theorem has_implies_load_ok (s : Store) (q : String) (h : POLLS_has s q = true) :
    ∃ p : Poll, s.polls q = some p ∧ POLLS_load s q = Except.ok p := by
  cases hq : s.polls q with
  | none => rw [POLLS_has, hq] at h; simp at h
  | some p => exact ⟨p, rfl, POLLS_load_of_some hq⟩

theorem has_implies_load_ok_witness :
    POLLS_has storeQ "Q" = true ∧
    (∃ p : Poll, storeQ.polls "Q" = some p ∧ POLLS_load storeQ "Q" = Except.ok p) :=
  ⟨rfl, has_implies_load_ok storeQ "Q" rfl⟩

end Mycosmwasm
